import Mathlib

/-!
Verification of the RouteChain VRP optimization engine
(backend/app/services/vrp_solver.py, backend/app/services/distance.py,
backend/app/models/route.py) against its natural-language specification.

The Python code is shallowly embedded: Python floats become rationals,
Python ints become Lean integers, Python exceptions become an explicit
error type carried in Except, and the in-place mutation of the
delivery-point list performed by the extraction step is made explicit by
returning the post-call list alongside the result.

The Google OR-Tools routing solver invoked by `solve_vrp` is an external
library, not part of this repository.  It is modelled as an oracle
argument: a function from the routing model and search parameters that
the code builds (matrices, demand callback values, capacity dimension,
time dimension, time limit) to an optional visiting order.  The
documented OR-Tools guarantee - that every returned route visits each
node exactly once and satisfies the registered cumulative dimension
bounds on the integer-truncated callback values - is stated as the
predicate `SolverOk` and assumed as a hypothesis where a claim needs it.
-/

namespace VRP

/-- Python exception values raised by the embedded code.  Both the input
validation in `solve_vrp` and its no-solution branch raise the builtin
`ValueError`; no other exception class is raised by the embedded
functions, and in particular no `InfeasibleProblemError` or
`ValidationError` class exists anywhere in the repository. -/
inductive PyError where
  | valueError (msg : String)
deriving Repr, DecidableEq

instance {ε α : Type _} [DecidableEq ε] [DecidableEq α] : DecidableEq (Except ε α) :=
  fun x y =>
    match x, y with
    | .error a, .error b =>
        if h : a = b then .isTrue (congrArg Except.error h)
        else .isFalse (fun hh => h (by cases hh; rfl))
    | .ok a, .ok b =>
        if h : a = b then .isTrue (congrArg Except.ok h)
        else .isFalse (fun hh => h (by cases hh; rfl))
    | .error _, .ok _ => .isFalse (fun hh => Except.noConfusion hh)
    | .ok _, .error _ => .isFalse (fun hh => Except.noConfusion hh)

/-- Row-major matrix of Python floats (distances in meters or durations
in seconds), as produced by DistanceMatrixService. -/
abbrev Matrix := List (List ℚ)

/-- Entry access `m[i][j]`.  Solver routes only ever index in range; the
default 0 stands in for the out-of-range case that would raise
IndexError in Python. -/
def mat (m : Matrix) (i j : Nat) : ℚ := (m.getD i []).getD j 0

/-- Python `int(q)`: truncation toward zero, as applied to matrix
entries by the distance and time callbacks of the solver.  `Int.div`
is T-division, which truncates toward zero exactly like Python `int`
applied to a float. -/
def pyInt (q : ℚ) : ℤ := Int.tdiv q.num q.den

/-- Python `round(q, ndigits)` modelled with round-half-up on rationals
(the banker-rounding tie case differs by at most one unit in the last
digit, inside every tolerance stated by the spec). -/
def roundTo (ndigits : Nat) (q : ℚ) : ℚ :=
  ((round (q * (10 : ℚ) ^ ndigits) : ℤ) : ℚ) / (10 : ℚ) ^ ndigits

/-- GPS coordinate pair (app/models/store.py `Location`). -/
structure Location where
  latitude : ℚ
  longitude : ℚ
deriving Repr, DecidableEq

/-- Delivery stop (app/models/route.py `DeliveryPoint`).  Only the
fields read or written by the VRP solver are carried; the remaining
pydantic fields (address, phone, time windows, proof of delivery, ...)
are never touched by the optimization path. -/
structure DeliveryPoint where
  point_id : String
  customer_name : String
  package_count : Int
  sequence_number : Option Nat
deriving Repr, DecidableEq

instance : Inhabited DeliveryPoint := ⟨⟨"", "", 0, none⟩⟩

/-- One leg of the optimized route (app/models/route.py
`RouteSegment`). -/
structure RouteSegment where
  from_point_id : String
  to_point_id : String
  distance_meters : ℚ
  duration_minutes : ℚ
  segment_order : Nat
deriving Repr, DecidableEq

/-- Solver metadata dict attached to the result by `solve_vrp`
(vrp_solver.py lines 271-277). -/
structure SolverInfo where
  solve_time_seconds : ℚ
  objective_value : ℤ
  status : String
  num_locations : Nat
  strategy : String
deriving Repr, DecidableEq

/-- Optimization result (app/models/route.py
`RouteOptimizationResult`). -/
structure RouteOptimizationResult where
  optimized_sequence : List DeliveryPoint
  route_segments : List RouteSegment
  total_distance_km : ℚ
  total_duration_minutes : ℚ
  solver_info : Option SolverInfo
deriving Repr, DecidableEq

/-- Search parameters built inside `solve_vrp` (lines 225-237): the two
strategy enums, the wall-clock time limit and the logging flag. -/
structure SearchParameters where
  first_solution_strategy : String
  local_search_metaheuristic : String
  time_limit_seconds : Nat
  log_search : Bool
deriving Repr, DecidableEq

/-- Solver configuration object (`VRPSolver.__init__`, lines 44-63). -/
structure VRPSolver where
  time_limit_seconds : Nat
  first_solution_strategy : String
  local_search_metaheuristic : String
deriving Repr, DecidableEq

/-- The global `vrp_solver = VRPSolver()` instance created at module
load (line 414), with the defaults set by `__init__`. -/
def vrp_solver : VRPSolver :=
  { time_limit_seconds := 30
    first_solution_strategy := "PATH_CHEAPEST_ARC"
    local_search_metaheuristic := "GUIDED_LOCAL_SEARCH" }

/-- Search-parameter construction of `solve_vrp` steps 7 (lines
225-237): every field comes from the solver instance, none from the
call arguments. -/
def searchParamsOf (s : VRPSolver) : SearchParameters :=
  { first_solution_strategy := s.first_solution_strategy
    local_search_metaheuristic := s.local_search_metaheuristic
    time_limit_seconds := s.time_limit_seconds
    log_search := false }

/-- The routing model handed to OR-Tools by `solve_vrp` steps 1-6:
node count, both matrices (their entries are truncated by the
callbacks), the demand of each delivery point, the capacity bound and
the duration bound in seconds. -/
structure RoutingModel where
  num_locations : Nat
  dist : Matrix
  dur : Matrix
  demands : List Int
  vehicle_capacity : Int
  max_duration_seconds : Int

/-- The model built by `solve_vrp` from its arguments. -/
def modelOf (delivery_points : List DeliveryPoint) (dist dur : Matrix)
    (vehicle_capacity max_duration_minutes : Int) : RoutingModel :=
  { num_locations := delivery_points.length + 1
    dist := dist
    dur := dur
    demands := delivery_points.map (fun p => p.package_count)
    vehicle_capacity := vehicle_capacity
    max_duration_seconds := max_duration_minutes * 60 }

/-- The `demand_callback` of `solve_vrp` (lines 161-182): node 0 is the
depot with demand 0, node i >= 1 is delivery point i-1. -/
def demandOf (m : RoutingModel) (node : Nat) : Int :=
  if node = 0 then 0 else m.demands.getD (node - 1) 0

/-- Consecutive pairs of a node sequence: the directed legs the vehicle
traverses. -/
def legsOf : List Nat → List (Nat × Nat)
  | a :: b :: rest => (a, b) :: legsOf (b :: rest)
  | _ => []

/-- The closed tour corresponding to a solver answer: depot, the stops
in visiting order, then the depot again (OR-Tools start and end node of
the single vehicle). -/
def routeNodes (stops : List Nat) : List Nat := 0 :: (stops ++ [0])

/-- Checks that every partial sum `acc + sum of a prefix` stays at or
below `bound`: the cumulative-dimension feasibility test OR-Tools
enforces on every solution it returns. -/
def prefixSumsOk (acc : ℤ) : List ℤ → ℤ → Bool
  | [], bound => decide (acc ≤ bound)
  | x :: xs, bound => decide (acc ≤ bound) && prefixSumsOk (acc + x) xs bound

/-- The OR-Tools contract for a returned visiting order `stops` of the
model `m`: all delivery nodes 1..n are visited exactly once, the
cumulative load (demand-callback values) respects the capacity
dimension at every position of the closed tour, and the cumulative
truncated travel time respects the time dimension at every position.
A `none` answer (no solution found within the budget) is always
allowed, so no condition is stated for it. -/
def SolverOk (m : RoutingModel) (stops : List Nat) : Prop :=
  stops.Perm (List.range' 1 (m.num_locations - 1)) ∧
  prefixSumsOk 0 ((routeNodes stops).map (demandOf m)) m.vehicle_capacity = true ∧
  prefixSumsOk 0 ((legsOf (routeNodes stops)).map
      (fun pq => pyInt (mat m.dur pq.1 pq.2))) m.max_duration_seconds = true

instance (m : RoutingModel) (stops : List Nat) : Decidable (SolverOk m stops) := by
  unfold SolverOk
  infer_instance

/-- Abstract stand-in for `routing.SolveWithParameters`: OR-Tools
receives exactly the model and the search parameters the code built and
answers with a visiting order or nothing. -/
abbrev SolverOracle := RoutingModel → SearchParameters → Option (List Nat)

/-- The `_get_point_id` helper (lines 390-410). -/
def pointId (node : Nat) (delivery_points : List DeliveryPoint) : String :=
  if node = 0 then "DEPOT" else (delivery_points.getD (node - 1) default).point_id

/-- Mutable state of the extraction loop in `_extract_solution` (lines
316-372): the caller's delivery-point list (mutated in place by Python),
the accumulators and the two loop-carried variables. -/
structure ExtractState where
  points : List DeliveryPoint
  optimized_sequence : List DeliveryPoint
  route_segments : List RouteSegment
  total_distance_meters : ℚ
  total_duration_seconds : ℚ
  previous_node : Option Nat
  segment_order : Nat

/-- One iteration of the `while not routing.IsEnd(index)` loop of
`_extract_solution` (lines 332-372), for the node the current index
maps to.  Setting `sequence_number` mutates the entry of the caller's
list; the appended sequence element is that same mutated point. -/
def extractStep (dist dur : Matrix) (st : ExtractState) (node : Nat) : ExtractState :=
  let st1 : ExtractState :=
    if node ≠ 0 ∨ st.previous_node ≠ none then
      if node = 0 then st
      else
        let point : DeliveryPoint :=
          { st.points.getD (node - 1) default with
            sequence_number := some st.optimized_sequence.length }
        { st with
          points := st.points.set (node - 1) point
          optimized_sequence := st.optimized_sequence ++ [point] }
    else st
  match st.previous_node with
  | some p =>
      let seg : RouteSegment :=
        { from_point_id := pointId p st1.points
          to_point_id := pointId node st1.points
          distance_meters := mat dist p node
          duration_minutes := mat dur p node / 60
          segment_order := st1.segment_order }
      { st1 with
        route_segments := st1.route_segments ++ [seg]
        total_distance_meters := st1.total_distance_meters + seg.distance_meters
        total_duration_seconds := st1.total_duration_seconds + mat dur p node
        segment_order := st1.segment_order + 1
        previous_node := some node }
  | none => { st1 with previous_node := some node }

/-- Embedding of `VRPSolver._extract_solution` (lines 287-388).  The
loop iterates over the indices for which `IsEnd` is false: the start
node (depot, node 0) followed by the stops in visiting order; the final
end index (again the depot) terminates the loop before being processed,
so the node list traversed is `0 :: stops`.  Returns the result
together with the delivery-point list as the caller observes it after
the in-place mutations. -/
def extract_solution (stops : List Nat) (delivery_points : List DeliveryPoint)
    (distance_matrix duration_matrix : Matrix) :
    RouteOptimizationResult × List DeliveryPoint :=
  let init : ExtractState :=
    { points := delivery_points
      optimized_sequence := []
      route_segments := []
      total_distance_meters := 0
      total_duration_seconds := 0
      previous_node := none
      segment_order := 0 }
  let fin := List.foldl (extractStep distance_matrix duration_matrix) init (0 :: stops)
  ({ optimized_sequence := fin.optimized_sequence
     route_segments := fin.route_segments
     total_distance_km := roundTo 2 (fin.total_distance_meters / 1000)
     total_duration_minutes := roundTo 1 (fin.total_duration_seconds / 60)
     solver_info := none }, fin.points)

/-- The `ObjectiveValue()` of the returned assignment: the arc-cost
evaluator registered in step 4 sums the truncated distances of every
traversed arc of the closed tour, including the final arc back to the
depot end node. -/
def objectiveValue (dist : Matrix) (stops : List Nat) : ℤ :=
  ((legsOf (routeNodes stops)).map (fun pq => pyInt (mat dist pq.1 pq.2))).sum

/-- Message of the `ValueError` raised when no solution is found
(lines 252-256). -/
def noSolutionMsg : String :=
  "No feasible solution found. Try reducing the number of deliveries, increasing vehicle capacity, or extending the time limit."

/-- Message of the `ValueError` raised by the input validation (lines
105-109). -/
def dimMismatchMsg (got expected : Nat) : String :=
  "Distance matrix size (" ++ toString got ++ ") doesn\x27t match number of locations (" ++ toString expected ++ ")"

/-- Strategy tag written into `solver_info` (line 276). -/
def strategyString : String := "PATH_CHEAPEST_ARC + GUIDED_LOCAL_SEARCH"

/-- Status tag written into `solver_info` (line 274): the source
computes `"OPTIMAL" if solution.ObjectiveValue() < float(inf) else
"FEASIBLE"`, and a finite integer objective always compares below
positive infinity, so the comparison is modelled as always true. -/
def solverStatus (_objective : ℤ) : String := "OPTIMAL"

/-- Embedding of `VRPSolver.solve_vrp` (lines 65-285).  The depot
location argument of the Python method is only forwarded to
`_extract_solution`, which never reads it, so it is dropped here.
`oracle` models the OR-Tools search (see `SolverOracle`) and
`solve_time` the measured wall-clock duration of that search. -/
def solve_vrp (solver : VRPSolver) (delivery_points : List DeliveryPoint)
    (distance_matrix duration_matrix : Matrix)
    (vehicle_capacity max_duration_minutes : Int)
    (oracle : SolverOracle) (solve_time : ℚ) :
    Except PyError (RouteOptimizationResult × List DeliveryPoint) :=
  let num_locations := delivery_points.length + 1
  if distance_matrix.length ≠ num_locations then
    .error (.valueError (dimMismatchMsg distance_matrix.length num_locations))
  else
    let model := modelOf delivery_points distance_matrix duration_matrix
      vehicle_capacity max_duration_minutes
    match oracle model (searchParamsOf solver) with
    | none => .error (.valueError noSolutionMsg)
    | some stops =>
        let er := extract_solution stops delivery_points distance_matrix duration_matrix
        let obj := objectiveValue distance_matrix stops
        let si : SolverInfo :=
          { solve_time_seconds := solve_time
            objective_value := obj
            status := solverStatus obj
            num_locations := num_locations
            strategy := strategyString }
        .ok ({ er.1 with solver_info := some si }, er.2)

/-- Abstraction of the HTTP answer of the OpenRouteService matrix
endpoint consumed by `calculate_distance_matrix`: status code and the
two parsed matrices (empty list when the key is missing). -/
structure ORSResponse where
  status_code : Nat
  distances : List (List ℚ)
  durations : List (List ℚ)
deriving Repr, DecidableEq

/-- Embedding of `DistanceMatrixService.calculate_distance_matrix`
(distance.py lines 63-197).  The two length checks precede the network
request; the `response` argument models whatever the request would
return and is only consulted after them.  The HTTP error branches map
status codes to `ValueError`s exactly as the except-clauses do (their
message texts, which interpolate the response body, are abbreviated to
their fixed prefixes). -/
def calculate_distance_matrix (locations : List Location) (response : ORSResponse) :
    Except PyError (List (List ℚ) × List (List ℚ)) :=
  if locations.length < 2 then
    .error (.valueError "Need at least 2 locations to calculate distance matrix")
  else if locations.length > 50 then
    .error (.valueError "Maximum 50 locations per request")
  else if response.status_code = 401 then
    .error (.valueError "Invalid OpenRouteService API key. Please check your OPENROUTESERVICE_API_KEY in .env")
  else if response.status_code = 403 then
    .error (.valueError "OpenRouteService API key quota exceeded or forbidden. Check your account limits.")
  else if response.status_code = 429 then
    .error (.valueError "OpenRouteService rate limit exceeded. Please wait before making more requests.")
  else if 400 ≤ response.status_code then
    .error (.valueError "OpenRouteService API error")
  else if response.distances.isEmpty ∨ response.durations.isEmpty then
    .error (.valueError "Invalid response from OpenRouteService: missing matrices")
  else if response.distances.length ≠ locations.length then
    .error (.valueError "Distance matrix size mismatch")
  else
    .ok (response.distances, response.durations)

/-! ## Reference descriptions used by the theorems -/

/-- A delivery point with its mutable `sequence_number` field erased:
two points are equal up to `stripSeq` exactly when they agree on every
field the extraction step never writes. -/
def stripSeq (p : DeliveryPoint) : DeliveryPoint := { p with sequence_number := none }

/-- A copy of a delivery point with its sequence number set to `k`. -/
def withSeq (p : DeliveryPoint) (k : Nat) : DeliveryPoint := { p with sequence_number := some k }

/-- Reference shape of the segment emitted for the `k`-th traversed leg
`pq` of the route. -/
def segOf (pts : List DeliveryPoint) (dist dur : Matrix) (k : Nat) (pq : Nat × Nat) :
    RouteSegment :=
  { from_point_id := pointId pq.1 pts
    to_point_id := pointId pq.2 pts
    distance_meters := mat dist pq.1 pq.2
    duration_minutes := mat dur pq.1 pq.2 / 60
    segment_order := k }

/-- Checks that consecutive segments chain: the destination of each
segment is the origin of the next. -/
def chainOk : List RouteSegment → Bool
  | s1 :: s2 :: rest => (s1.to_point_id == s2.from_point_id) && chainOk (s2 :: rest)
  | _ => true

instance : Inhabited RouteOptimizationResult := ⟨⟨[], [], 0, 0, none⟩⟩

/-- Projection of a successful `solve_vrp` outcome (the result object
and the caller-visible delivery-point list); a conventional default
stands in for the error case, which the theorems always exclude. -/
def okValue (e : Except PyError (RouteOptimizationResult × List DeliveryPoint)) :
    RouteOptimizationResult × List DeliveryPoint :=
  e.toOption.getD (default, [])

/-! ## Helper lemmas about the embedding -/

theorem stripSeq_withSeq (p : DeliveryPoint) (k : Nat) : stripSeq (withSeq p k) = stripSeq p := rfl

theorem stripSeq_default : stripSeq default = default := rfl

theorem point_id_stripSeq (p : DeliveryPoint) : (stripSeq p).point_id = p.point_id := rfl

theorem package_count_stripSeq (p : DeliveryPoint) :
    (stripSeq p).package_count = p.package_count := rfl

theorem withSeq_congr {a b : DeliveryPoint} (h : stripSeq a = stripSeq b) (k : Nat) :
    withSeq a k = withSeq b k := by
  cases a
  cases b
  simp only [stripSeq, DeliveryPoint.mk.injEq] at h
  simp [withSeq, h.1, h.2.1, h.2.2]

theorem getD_map {α β : Type _} (f : α → β) (l : List α) (i : Nat) (d : α) :
    (l.map f).getD i (f d) = f (l.getD i d) := by
  simp only [List.getD_eq_getElem?_getD, List.getElem?_map]
  cases l[i]? <;> simp

theorem getD_strip {l1 l2 : List DeliveryPoint} (h : l1.map stripSeq = l2.map stripSeq)
    (i : Nat) : stripSeq (l1.getD i default) = stripSeq (l2.getD i default) := by
  have h1 := getD_map stripSeq l1 i default
  have h2 := getD_map stripSeq l2 i default
  rw [stripSeq_default] at h1 h2
  rw [← h1, ← h2, h]

theorem pointId_congr {l1 l2 : List DeliveryPoint} (h : l1.map stripSeq = l2.map stripSeq)
    (n : Nat) : pointId n l1 = pointId n l2 := by
  unfold pointId
  by_cases hn : n = 0
  · simp [hn]
  · simp only [hn, if_false]
    have := congrArg DeliveryPoint.point_id (getD_strip h (n - 1))
    simpa [point_id_stripSeq] using this

theorem segOf_congr {l1 l2 : List DeliveryPoint} (h : l1.map stripSeq = l2.map stripSeq)
    (dist dur : Matrix) (k : Nat) (pq : Nat × Nat) :
    segOf l1 dist dur k pq = segOf l2 dist dur k pq := by
  simp [segOf, pointId_congr h]

theorem set_getD_self {α : Type _} : ∀ (l : List α) (i : Nat) (d : α),
    l.set i (l.getD i d) = l
  | [], _, _ => rfl
  | _ :: _, 0, _ => rfl
  | a :: t, i + 1, d => by simpa [List.set, List.getD] using set_getD_self t i d

theorem map_strip_set (l : List DeliveryPoint) (i k : Nat) :
    (l.set i (withSeq (l.getD i default) k)).map stripSeq = l.map stripSeq := by
  rw [List.map_set, stripSeq_withSeq]
  have h0 := getD_map stripSeq l i default
  rw [stripSeq_default] at h0
  rw [← h0, set_getD_self]

theorem getD_range {α : Type _} : ∀ (l : List α) (d : α),
    (List.range l.length).map (fun i => l.getD i d) = l
  | [], _ => rfl
  | a :: t, d => by
    rw [List.length_cons, List.range_succ_eq_map, List.map_cons, List.map_map]
    have hcomp : ((fun i => (a :: t).getD i d) ∘ Nat.succ) = (fun i => t.getD i d) := by
      funext x
      rfl
    rw [hcomp, getD_range t d]
    rfl

/-! ## Characterization of the extraction loop -/

theorem extractStep_start (dist dur : Matrix) (st : ExtractState)
    (hp : st.previous_node = none) :
    extractStep dist dur st 0 = { st with previous_node := some 0 } := by
  unfold extractStep
  rw [hp]
  simp

theorem extractStep_opt_points (dist dur : Matrix) (st : ExtractState) (s : Nat)
    (hs : s ≠ 0) :
    (extractStep dist dur st s).optimized_sequence
        = st.optimized_sequence ++
          [withSeq (st.points.getD (s - 1) default) st.optimized_sequence.length]
      ∧ (extractStep dist dur st s).points
        = st.points.set (s - 1)
            (withSeq (st.points.getD (s - 1) default) st.optimized_sequence.length) := by
  unfold extractStep
  rcases st.previous_node <;> simp [hs, withSeq]

theorem extractStep_stop (dist dur : Matrix) (st : ExtractState) (p s : Nat)
    (hp : st.previous_node = some p) (hs : s ≠ 0) :
    extractStep dist dur st s =
      { points := st.points.set (s - 1)
          (withSeq (st.points.getD (s - 1) default) st.optimized_sequence.length)
        optimized_sequence := st.optimized_sequence ++
          [withSeq (st.points.getD (s - 1) default) st.optimized_sequence.length]
        route_segments := st.route_segments ++
          [segOf (st.points.set (s - 1)
              (withSeq (st.points.getD (s - 1) default) st.optimized_sequence.length))
            dist dur st.segment_order (p, s)]
        total_distance_meters := st.total_distance_meters + mat dist p s
        total_duration_seconds := st.total_duration_seconds + mat dur p s
        previous_node := some s
        segment_order := st.segment_order + 1 } := by
  unfold extractStep
  rw [hp]
  simp [hs, withSeq, segOf]

theorem extractStep_points_strip (dist dur : Matrix) (st : ExtractState) (n : Nat) :
    (extractStep dist dur st n).points.map stripSeq = st.points.map stripSeq := by
  by_cases hn : n = 0
  · subst hn
    unfold extractStep
    rcases st.previous_node <;> simp
  · obtain ⟨_, hpts⟩ := extractStep_opt_points dist dur st n hn
    rw [hpts, map_strip_set]

theorem foldl_points_strip (dist dur : Matrix) : ∀ (nodes : List Nat) (st : ExtractState),
    (List.foldl (extractStep dist dur) st nodes).points.map stripSeq
      = st.points.map stripSeq
  | [], _ => rfl
  | n :: rest, st => by
    rw [List.foldl_cons, foldl_points_strip dist dur rest, extractStep_points_strip]

theorem foldl_opt (dist dur : Matrix) : ∀ (stops : List Nat) (st : ExtractState),
    (∀ s ∈ stops, s ≠ 0) →
    (List.foldl (extractStep dist dur) st stops).optimized_sequence
      = st.optimized_sequence ++
        (List.enumFrom st.optimized_sequence.length stops).map
          (fun e => withSeq (st.points.getD (e.2 - 1) default) e.1)
  | [], st, _ => by simp [List.enumFrom]
  | s :: rest, st, hz => by
    have hs : s ≠ 0 := hz s (by simp)
    have hz' : ∀ x ∈ rest, x ≠ 0 := fun x hx => hz x (by simp [hx])
    obtain ⟨hopt, hpts⟩ := extractStep_opt_points dist dur st s hs
    rw [List.foldl_cons, foldl_opt dist dur rest _ hz', hopt, hpts]
    have hstrip := map_strip_set st.points (s - 1) st.optimized_sequence.length
    have hmap : (List.enumFrom (st.optimized_sequence.length + 1) rest).map
          (fun e => withSeq ((st.points.set (s - 1)
            (withSeq (st.points.getD (s - 1) default) st.optimized_sequence.length)).getD
              (e.2 - 1) default) e.1)
        = (List.enumFrom (st.optimized_sequence.length + 1) rest).map
          (fun e => withSeq (st.points.getD (e.2 - 1) default) e.1) := by
      apply List.map_congr_left
      intro e _
      exact withSeq_congr (getD_strip hstrip (e.2 - 1)) e.1
    simp only [List.length_append, List.length_cons, List.length_nil, Nat.zero_add,
      List.enumFrom, List.map_cons, List.append_assoc, List.cons_append, List.nil_append]
    rw [hmap]

theorem foldl_segs (dist dur : Matrix) : ∀ (stops : List Nat) (st : ExtractState) (p : Nat),
    st.previous_node = some p → (∀ s ∈ stops, s ≠ 0) →
    (List.foldl (extractStep dist dur) st stops).route_segments
      = st.route_segments ++
        (List.enumFrom st.segment_order (legsOf (p :: stops))).map
          (fun e => segOf st.points dist dur e.1 e.2)
  | [], st, p, _, _ => by simp [legsOf, List.enumFrom]
  | s :: rest, st, p, hp, hz => by
    have hs : s ≠ 0 := hz s (by simp)
    have hz' : ∀ x ∈ rest, x ≠ 0 := fun x hx => hz x (by simp [hx])
    rw [List.foldl_cons, extractStep_stop dist dur st p s hp hs]
    rw [foldl_segs dist dur rest _ s rfl hz']
    have hstrip := map_strip_set st.points (s - 1) st.optimized_sequence.length
    have hseg : segOf (st.points.set (s - 1)
          (withSeq (st.points.getD (s - 1) default) st.optimized_sequence.length))
          dist dur st.segment_order (p, s)
        = segOf st.points dist dur st.segment_order (p, s) := segOf_congr hstrip dist dur _ _
    have hmap : (List.enumFrom (st.segment_order + 1) (legsOf (s :: rest))).map
          (fun e => segOf (st.points.set (s - 1)
            (withSeq (st.points.getD (s - 1) default) st.optimized_sequence.length))
            dist dur e.1 e.2)
        = (List.enumFrom (st.segment_order + 1) (legsOf (s :: rest))).map
          (fun e => segOf st.points dist dur e.1 e.2) := by
      apply List.map_congr_left
      intro e _
      exact segOf_congr hstrip dist dur e.1 e.2
    show (st.route_segments ++ [_]) ++ _ = st.route_segments ++ _
    rw [hseg, hmap]
    have hlegs : legsOf (p :: s :: rest) = (p, s) :: legsOf (s :: rest) := rfl
    rw [hlegs]
    simp [List.enumFrom, List.append_assoc]

theorem extractStep_dist_total (dist dur : Matrix) (st : ExtractState) (n : Nat) :
    (extractStep dist dur st n).total_distance_meters
        - (((extractStep dist dur st n).route_segments.map
            (fun sg => sg.distance_meters)).sum)
      = st.total_distance_meters
        - ((st.route_segments.map (fun sg => sg.distance_meters)).sum) := by
  unfold extractStep
  rcases st.previous_node <;> by_cases hn : n = 0 <;> simp [hn]

theorem extractStep_dur_total (dist dur : Matrix) (st : ExtractState) (n : Nat) :
    (extractStep dist dur st n).total_duration_seconds
        - (((extractStep dist dur st n).route_segments.map
            (fun sg => 60 * sg.duration_minutes)).sum)
      = st.total_duration_seconds
        - ((st.route_segments.map (fun sg => 60 * sg.duration_minutes)).sum) := by
  unfold extractStep
  rcases st.previous_node <;> by_cases hn : n = 0 <;> simp [hn] <;> ring

theorem foldl_dist_total (dist dur : Matrix) : ∀ (nodes : List Nat) (st : ExtractState),
    (List.foldl (extractStep dist dur) st nodes).total_distance_meters
        - (((List.foldl (extractStep dist dur) st nodes).route_segments.map
            (fun sg => sg.distance_meters)).sum)
      = st.total_distance_meters
        - ((st.route_segments.map (fun sg => sg.distance_meters)).sum)
  | [], _ => rfl
  | n :: rest, st => by
    rw [List.foldl_cons, foldl_dist_total dist dur rest, extractStep_dist_total]

theorem foldl_dur_total (dist dur : Matrix) : ∀ (nodes : List Nat) (st : ExtractState),
    (List.foldl (extractStep dist dur) st nodes).total_duration_seconds
        - (((List.foldl (extractStep dist dur) st nodes).route_segments.map
            (fun sg => 60 * sg.duration_minutes)).sum)
      = st.total_duration_seconds
        - ((st.route_segments.map (fun sg => 60 * sg.duration_minutes)).sum)
  | [], _ => rfl
  | n :: rest, st => by
    rw [List.foldl_cons, foldl_dur_total dist dur rest, extractStep_dur_total]

theorem extract_solution_eq (stops : List Nat) (points : List DeliveryPoint)
    (dist dur : Matrix) :
    extract_solution stops points dist dur =
      ({ optimized_sequence := (List.foldl (extractStep dist dur)
            ⟨points, [], [], 0, 0, none, 0⟩ (0 :: stops)).optimized_sequence
         route_segments := (List.foldl (extractStep dist dur)
            ⟨points, [], [], 0, 0, none, 0⟩ (0 :: stops)).route_segments
         total_distance_km := roundTo 2 ((List.foldl (extractStep dist dur)
            ⟨points, [], [], 0, 0, none, 0⟩ (0 :: stops)).total_distance_meters / 1000)
         total_duration_minutes := roundTo 1 ((List.foldl (extractStep dist dur)
            ⟨points, [], [], 0, 0, none, 0⟩ (0 :: stops)).total_duration_seconds / 60)
         solver_info := none },
       (List.foldl (extractStep dist dur)
          ⟨points, [], [], 0, 0, none, 0⟩ (0 :: stops)).points) := rfl

theorem foldl_start (dist dur : Matrix) (stops : List Nat) (points : List DeliveryPoint) :
    List.foldl (extractStep dist dur) ⟨points, [], [], 0, 0, none, 0⟩ (0 :: stops)
      = List.foldl (extractStep dist dur) ⟨points, [], [], 0, 0, some 0, 0⟩ stops := by
  rw [List.foldl_cons, extractStep_start dist dur _ rfl]

theorem extract_solution_points_strip (stops : List Nat) (points : List DeliveryPoint)
    (dist dur : Matrix) :
    (extract_solution stops points dist dur).2.map stripSeq = points.map stripSeq := by
  rw [extract_solution_eq]
  exact foldl_points_strip dist dur (0 :: stops) _

theorem extract_solution_opt (stops : List Nat) (points : List DeliveryPoint)
    (dist dur : Matrix) (hz : ∀ s ∈ stops, s ≠ 0) :
    (extract_solution stops points dist dur).1.optimized_sequence
      = (List.enumFrom 0 stops).map
          (fun e => withSeq (points.getD (e.2 - 1) default) e.1) := by
  rw [extract_solution_eq]
  show (List.foldl (extractStep dist dur) ⟨points, [], [], 0, 0, none, 0⟩
      (0 :: stops)).optimized_sequence = _
  rw [foldl_start, foldl_opt dist dur stops _ hz]
  simp

theorem extract_solution_segs (stops : List Nat) (points : List DeliveryPoint)
    (dist dur : Matrix) (hz : ∀ s ∈ stops, s ≠ 0) :
    (extract_solution stops points dist dur).1.route_segments
      = (List.enumFrom 0 (legsOf (0 :: stops))).map
          (fun e => segOf points dist dur e.1 e.2) := by
  rw [extract_solution_eq]
  show (List.foldl (extractStep dist dur) ⟨points, [], [], 0, 0, none, 0⟩
      (0 :: stops)).route_segments = _
  rw [foldl_start, foldl_segs dist dur stops _ 0 rfl hz]
  simp

theorem extract_solution_total_dist (stops : List Nat) (points : List DeliveryPoint)
    (dist dur : Matrix) :
    (extract_solution stops points dist dur).1.total_distance_km
      = roundTo 2 ((((extract_solution stops points dist dur).1.route_segments.map
          (fun sg => sg.distance_meters)).sum) / 1000) := by
  rw [extract_solution_eq]
  have h := foldl_dist_total dist dur (0 :: stops) ⟨points, [], [], 0, 0, none, 0⟩
  simp only [List.map_nil, List.sum_nil, sub_zero] at h
  rw [sub_eq_zero] at h
  rw [h]

theorem extract_solution_total_dur (stops : List Nat) (points : List DeliveryPoint)
    (dist dur : Matrix) :
    (extract_solution stops points dist dur).1.total_duration_minutes
      = roundTo 1 ((((extract_solution stops points dist dur).1.route_segments.map
          (fun sg => 60 * sg.duration_minutes)).sum) / 60) := by
  rw [extract_solution_eq]
  have h := foldl_dur_total dist dur (0 :: stops) ⟨points, [], [], 0, 0, none, 0⟩
  simp only [List.map_nil, List.sum_nil, sub_zero] at h
  rw [sub_eq_zero] at h
  rw [h]

/-! ## Feasibility bookkeeping -/

theorem prefixSumsOk_iff : ∀ (l : List ℤ) (acc bound : ℤ),
    prefixSumsOk acc l bound = true ↔ ∀ k, acc + ((l.take k).sum) ≤ bound
  | [], acc, bound => by simp [prefixSumsOk]
  | x :: xs, acc, bound => by
    simp only [prefixSumsOk, Bool.and_eq_true, decide_eq_true_eq,
      prefixSumsOk_iff xs (acc + x) bound]
    constructor
    · rintro ⟨h0, h1⟩ k
      cases k with
      | zero => simpa using h0
      | succ k =>
        have := h1 k
        rw [List.take_succ_cons]
        simpa [add_assoc] using this
    · intro h
      refine ⟨by simpa using h 0, fun k => ?_⟩
      have := h (k + 1)
      rw [List.take_succ_cons] at this
      simpa [add_assoc] using this

theorem prefix_bound_zero_cons {M : List ℤ} {b : ℤ}
    (h : ∀ k, (((0 : ℤ) :: (M ++ [0])).take k).sum ≤ b) : ∀ k, (M.take k).sum ≤ b := by
  intro k
  rcases le_or_lt k M.length with hk | hk
  · have := h (k + 1)
    rw [List.take_succ_cons, List.take_append_of_le_length hk] at this
    simpa using this
  · have hMk : M.take k = M := List.take_of_length_le hk.le
    have := h (M.length + 1)
    rw [List.take_succ_cons, List.take_append_of_le_length le_rfl, List.take_length] at this
    simpa [hMk] using this

theorem prefix_bound_concat {A : List ℤ} {x b : ℤ}
    (h : ∀ k, ((A ++ [x]).take k).sum ≤ b) : ∀ k, (A.take k).sum ≤ b := by
  intro k
  rcases le_or_lt k A.length with hk | hk
  · have := h k
    rwa [List.take_append_of_le_length hk] at this
  · have hAk : A.take k = A := List.take_of_length_le hk.le
    have := h A.length
    rw [List.take_append_of_le_length le_rfl, List.take_length] at this
    simpa [hAk] using this

theorem legsOf_concat : ∀ (l : List Nat) (a x : Nat),
    legsOf (a :: (l ++ [x])) = legsOf (a :: l) ++ [(l.getLastD a, x)]
  | [], _, _ => rfl
  | b :: t, a, x => by
    show (a, b) :: legsOf (b :: (t ++ [x]))
      = ((a, b) :: legsOf (b :: t)) ++ [((b :: t).getLastD a, x)]
    rw [legsOf_concat t b x, List.getLastD_cons]
    rfl

theorem legsOf_getLast?_snd : ∀ (l : List Nat) (a : Nat), l ≠ [] →
    ((legsOf (a :: l)).getLast?).map Prod.snd = l.getLast?
  | [], _, h => absurd rfl h
  | [_], _, _ => rfl
  | b :: c :: t, a, _ => by
    show (((a, b) :: legsOf (b :: c :: t)).getLast?).map Prod.snd = _
    have h2 : legsOf (b :: c :: t) = (b, c) :: legsOf (c :: t) := rfl
    rw [h2, List.getLast?_cons_cons, ← h2,
      legsOf_getLast?_snd (c :: t) b (by simp), List.getLast?_cons_cons]

theorem chainOk_segOf (pts : List DeliveryPoint) (dist dur : Matrix) :
    ∀ (l : List Nat) (k : Nat),
    chainOk ((List.enumFrom k (legsOf l)).map (fun e => segOf pts dist dur e.1 e.2)) = true
  | [], _ => rfl
  | [_], _ => rfl
  | [_, _], _ => rfl
  | a :: b :: c :: t, k => by
    have hrec := chainOk_segOf pts dist dur (b :: c :: t) (k + 1)
    show chainOk (segOf pts dist dur k (a, b) :: segOf pts dist dur (k + 1) (b, c) ::
      (List.enumFrom (k + 2) (legsOf (c :: t))).map (fun e => segOf pts dist dur e.1 e.2)) = true
    rw [chainOk]
    simp only [Bool.and_eq_true]
    constructor
    · simp [segOf]
    · exact hrec

/-! ## Arithmetic facts about truncation and rounding -/

theorem pyInt_nonneg_eq_floor {q : ℚ} (h : 0 ≤ q) : pyInt q = ⌊q⌋ := by
  unfold pyInt
  rw [Rat.floor_def]
  exact Int.tdiv_eq_ediv (Rat.num_nonneg.mpr h) (Int.ofNat_nonneg q.den)

theorem pyInt_neg_eq_ceil {q : ℚ} (h : q < 0) : pyInt q = ⌈q⌉ := by
  unfold pyInt
  have hnum : q.num = -(-q).num := by rw [Rat.num_neg_eq_neg_num, neg_neg]
  have hden : (q.den : ℤ) = ((-q).den : ℤ) := by rw [Rat.den_neg_eq_den]
  rw [hnum, hden, Int.neg_tdiv]
  have h0 : (0 : ℚ) ≤ -q := by linarith
  rw [Int.tdiv_eq_ediv (Rat.num_nonneg.mpr h0) (Int.ofNat_nonneg (-q).den), ← Rat.floor_def,
    Int.floor_neg, neg_neg]

theorem le_pyInt_add_one (q : ℚ) : q ≤ (pyInt q : ℚ) + 1 := by
  rcases lt_or_le q 0 with h | h
  · rw [pyInt_neg_eq_ceil h]
    have := Int.le_ceil q
    linarith
  · rw [pyInt_nonneg_eq_floor h]
    have := Int.lt_floor_add_one q
    linarith

theorem abs_roundTo2_sub (q : ℚ) : |roundTo 2 q - q| ≤ 1 / 100 := by
  unfold roundTo
  have h : |(round (q * (10 : ℚ) ^ 2) : ℚ) - q * (10 : ℚ) ^ 2| ≤ 1 / 2 := by
    rw [abs_sub_comm]
    exact abs_sub_round _
  have hrw : (round (q * (10 : ℚ) ^ 2) : ℚ) / (10 : ℚ) ^ 2 - q
      = ((round (q * (10 : ℚ) ^ 2) : ℚ) - q * (10 : ℚ) ^ 2) / (10 : ℚ) ^ 2 := by
    ring
  rw [hrw, abs_div]
  have h100 : |((10 : ℚ) ^ 2)| = 100 := by norm_num
  rw [h100]
  linarith

theorem sum_map_add_const {α : Type _} : ∀ (l : List α) (f : α → ℚ) (c : ℚ),
    (l.map (fun x => f x + c)).sum = (l.map f).sum + l.length * c
  | [], _, _ => by simp
  | a :: t, f, c => by
    simp [sum_map_add_const t f c]
    ring

theorem sixty_mul_div_sixty (x : ℚ) : 60 * (x / 60) = x := by ring

/-! ## Unfolding lemmas for solve_vrp -/

/-- The `solver_info` dict attached by `solve_vrp` when extraction ran
on the visiting order `stops`. -/
def solveInfoOf (points : List DeliveryPoint) (dist : Matrix) (stops : List Nat)
    (t : ℚ) : SolverInfo :=
  { solve_time_seconds := t
    objective_value := objectiveValue dist stops
    status := solverStatus (objectiveValue dist stops)
    num_locations := points.length + 1
    strategy := strategyString }

/-- The value returned by a successful `solve_vrp` call that extracted
the visiting order `stops`. -/
def solveOkValue (points : List DeliveryPoint) (dist dur : Matrix) (stops : List Nat)
    (t : ℚ) : RouteOptimizationResult × List DeliveryPoint :=
  ({ (extract_solution stops points dist dur).1 with
      solver_info := some (solveInfoOf points dist stops t) },
   (extract_solution stops points dist dur).2)

theorem solve_vrp_eq_ok {solver : VRPSolver} {points : List DeliveryPoint}
    {dist dur : Matrix} {cap maxD : Int} {oracle : SolverOracle} {t : ℚ}
    {stops : List Nat}
    (hdim : dist.length = points.length + 1)
    (ho : oracle (modelOf points dist dur cap maxD) (searchParamsOf solver) = some stops) :
    solve_vrp solver points dist dur cap maxD oracle t
      = .ok (solveOkValue points dist dur stops t) := by
  simp only [solve_vrp, solveOkValue, solveInfoOf, hdim, ne_eq, not_true_eq_false,
    if_false, ho]

theorem solve_vrp_eq_none {solver : VRPSolver} {points : List DeliveryPoint}
    {dist dur : Matrix} {cap maxD : Int} {oracle : SolverOracle} {t : ℚ}
    (hdim : dist.length = points.length + 1)
    (ho : oracle (modelOf points dist dur cap maxD) (searchParamsOf solver) = none) :
    solve_vrp solver points dist dur cap maxD oracle t
      = .error (.valueError noSolutionMsg) := by
  simp only [solve_vrp, hdim, ne_eq, not_true_eq_false, if_false, ho]

theorem solve_vrp_eq_dim {solver : VRPSolver} {points : List DeliveryPoint}
    {dist dur : Matrix} {cap maxD : Int} {oracle : SolverOracle} {t : ℚ}
    (hdim : dist.length ≠ points.length + 1) :
    solve_vrp solver points dist dur cap maxD oracle t
      = .error (.valueError (dimMismatchMsg dist.length (points.length + 1))) := by
  simp only [solve_vrp, ne_eq, hdim, not_false_eq_true, if_true]

theorem solve_vrp_isOk_elim {solver : VRPSolver} {points : List DeliveryPoint}
    {dist dur : Matrix} {cap maxD : Int} {oracle : SolverOracle} {t : ℚ}
    (h : (solve_vrp solver points dist dur cap maxD oracle t).isOk = true) :
    dist.length = points.length + 1 ∧
      ∃ stops, oracle (modelOf points dist dur cap maxD) (searchParamsOf solver)
        = some stops := by
  by_cases hdim : dist.length = points.length + 1
  · refine ⟨hdim, ?_⟩
    rcases ho : oracle (modelOf points dist dur cap maxD) (searchParamsOf solver)
      with _ | stops
    · rw [solve_vrp_eq_none hdim ho] at h
      simp [Except.isOk, Except.toBool] at h
    · exact ⟨stops, rfl⟩

  · rw [solve_vrp_eq_dim hdim] at h
    simp [Except.isOk, Except.toBool] at h

theorem okValue_ok (x : RouteOptimizationResult × List DeliveryPoint) :
    okValue (.ok x) = x := rfl

/-! ## Bridging the solver contract to the extracted route -/

theorem stops_ne_zero {stops : List Nat} {n : Nat}
    (hperm : stops.Perm (List.range' 1 n)) : ∀ s ∈ stops, s ≠ 0 := by
  intro s hs
  have hmem : s ∈ List.range' 1 n := hperm.subset hs
  obtain ⟨i, _, rfl⟩ := List.mem_range'.mp hmem
  omega

theorem solverOk_perm {points : List DeliveryPoint} {dist dur : Matrix} {cap maxD : Int}
    {stops : List Nat} (h : SolverOk (modelOf points dist dur cap maxD) stops) :
    stops.Perm (List.range' 1 points.length) := by
  have := h.1
  simpa [modelOf] using this

theorem demand_map_eq (points : List DeliveryPoint) (dist dur : Matrix) (cap maxD : Int)
    (stops : List Nat) (hz : ∀ s ∈ stops, s ≠ 0) :
    stops.map (demandOf (modelOf points dist dur cap maxD))
      = stops.map (fun s => (points.getD (s - 1) default).package_count) := by
  apply List.map_congr_left
  intro s hs
  have hs0 : s ≠ 0 := hz s hs
  simp only [demandOf, hs0, if_false, modelOf]
  exact getD_map (fun p => p.package_count) points (s - 1) default

theorem solverOk_load {points : List DeliveryPoint} {dist dur : Matrix} {cap maxD : Int}
    {stops : List Nat} (h : SolverOk (modelOf points dist dur cap maxD) stops) :
    ∀ k, ((stops.map (fun s => (points.getD (s - 1) default).package_count)).take k).sum
      ≤ cap := by
  have hz : ∀ s ∈ stops, s ≠ 0 := stops_ne_zero (solverOk_perm h)
  obtain ⟨-, hload, -⟩ := h
  rw [prefixSumsOk_iff] at hload
  simp only [zero_add] at hload
  have hshape : (routeNodes stops).map (demandOf (modelOf points dist dur cap maxD))
      = 0 :: (stops.map (demandOf (modelOf points dist dur cap maxD)) ++ [0]) := by
    simp [routeNodes, demandOf]
  rw [hshape] at hload
  have hb := prefix_bound_zero_cons hload
  intro k
  have := hb k
  rw [demand_map_eq points dist dur cap maxD stops hz] at this
  simpa [modelOf] using this

theorem solverOk_time {points : List DeliveryPoint} {dist dur : Matrix} {cap maxD : Int}
    {stops : List Nat} (h : SolverOk (modelOf points dist dur cap maxD) stops) :
    ∀ k, (((legsOf (0 :: stops)).map (fun pq => pyInt (mat dur pq.1 pq.2))).take k).sum
      ≤ maxD * 60 := by
  obtain ⟨-, -, htime⟩ := h
  rw [prefixSumsOk_iff] at htime
  simp only [zero_add] at htime
  have hshape : legsOf (routeNodes stops) = legsOf (0 :: stops) ++ [(stops.getLastD 0, 0)] :=
    legsOf_concat stops 0 0
  rw [hshape, List.map_append] at htime
  have hb := prefix_bound_concat (by simpa using htime)
  intro k
  have := hb k
  simpa [modelOf] using this

theorem solveOkValue_opt (points : List DeliveryPoint) (dist dur : Matrix)
    (stops : List Nat) (t : ℚ) :
    (solveOkValue points dist dur stops t).1.optimized_sequence
      = (extract_solution stops points dist dur).1.optimized_sequence := rfl

theorem solveOkValue_segs (points : List DeliveryPoint) (dist dur : Matrix)
    (stops : List Nat) (t : ℚ) :
    (solveOkValue points dist dur stops t).1.route_segments
      = (extract_solution stops points dist dur).1.route_segments := rfl

theorem solveOkValue_snd (points : List DeliveryPoint) (dist dur : Matrix)
    (stops : List Nat) (t : ℚ) :
    (solveOkValue points dist dur stops t).2
      = (extract_solution stops points dist dur).2 := rfl

theorem opt_strip_perm {points : List DeliveryPoint} {dist dur : Matrix}
    {stops : List Nat} (hperm : stops.Perm (List.range' 1 points.length))
    (hz : ∀ s ∈ stops, s ≠ 0) :
    (((extract_solution stops points dist dur).1.optimized_sequence).map stripSeq).Perm
      (points.map stripSeq) := by
  rw [extract_solution_opt _ _ _ _ hz]
  have h1 : ((List.enumFrom 0 stops).map
        (fun e => withSeq (points.getD (e.2 - 1) default) e.1)).map stripSeq
      = stops.map (fun s => stripSeq (points.getD (s - 1) default)) := by
    rw [List.map_map]
    have hc : (stripSeq ∘ fun e : Nat × Nat => withSeq (points.getD (e.2 - 1) default) e.1)
        = (fun s : Nat => stripSeq (points.getD (s - 1) default)) ∘ Prod.snd := by
      funext e
      simp [Function.comp, stripSeq_withSeq]
    rw [hc, ← List.map_map, List.enumFrom_map_snd]
  rw [h1]
  have h2 := hperm.map (fun s => stripSeq (points.getD (s - 1) default))
  have h3 : (List.range' 1 points.length).map
        (fun s => stripSeq (points.getD (s - 1) default)) = points.map stripSeq := by
    rw [List.range'_eq_map_range, List.map_map]
    have hc : ((fun s => stripSeq (points.getD (s - 1) default)) ∘ (1 + ·))
        = (fun i => stripSeq (points.getD i default)) := by
      funext i
      simp [Function.comp, Nat.add_sub_cancel_left]
    rw [hc]
    have h4 : ∀ i, stripSeq (points.getD i default) = (points.map stripSeq).getD i default := by
      intro i
      have := getD_map stripSeq points i default
      rw [stripSeq_default] at this
      exact this.symm
    calc (List.range points.length).map (fun i => stripSeq (points.getD i default))
        = (List.range (points.map stripSeq).length).map
            (fun i => (points.map stripSeq).getD i default) := by
          rw [List.length_map]
          exact List.map_congr_left (fun i _ => h4 i)
      _ = points.map stripSeq := getD_range _ _
  rw [h3] at h2
  exact h2

/-! ## Concrete instances used by witnesses and counterexamples -/

def cP1 : DeliveryPoint := ⟨"P1", "Amina", 1, none⟩

def cP2 : DeliveryPoint := ⟨"P2", "Karim", 2, none⟩

def cP0 : DeliveryPoint := ⟨"P0", "Nadia", 0, none⟩

def cPtsInf : List DeliveryPoint := [⟨"A", "A", 10, none⟩, ⟨"B", "B", 10, none⟩, ⟨"C", "C", 10, none⟩]

def cDist1 : Matrix := [[0, 100], [100, 0]]

def cDur1 : Matrix := [[0, 60], [60, 0]]

def cDurHalf : Matrix := [[0, mkRat 121 2], [0, 0]]

def cDist2 : Matrix := [[0, 100, 200], [100, 0, 50], [200, 50, 0]]

def cDur2 : Matrix := [[0, 60, 120], [60, 0, 30], [120, 30, 0]]

def cDurZ : Matrix := [[0, 0], [0, 0]]

def cM4 : Matrix := [[0, 0, 0, 0], [0, 0, 0, 0], [0, 0, 0, 0], [0, 0, 0, 0]]

def cOracle21 : SolverOracle := fun _ _ => some [2, 1]

def cOracle1 : SolverOracle := fun _ _ => some [1]

def cOracle12 : SolverOracle := fun _ _ => some [1, 2]

def cOracleNone : SolverOracle := fun _ _ => none

def cLoc : Location := ⟨0, 0⟩

def cLocs51 : List Location := List.replicate 51 cLoc

def cResp : ORSResponse := ⟨200, [], []⟩

def cRespOk : ORSResponse := ⟨200, [[0, 0], [0, 0]], [[0, 0], [0, 0]]⟩

/-! ## Claim C1 -/

/-- C1 (amended): on every valid problem where the solver (modelled by
the OR-Tools contract `SolverOk`) returns a visiting order, the result
of `solve_vrp` lists every delivery stop exactly once in
`optimized_sequence` (a permutation of the input stops up to the
`sequence_number` field, no duplicates, no omissions), and the emitted
segments form a connected chain that starts at the depot; the chain
ends at the last delivery stop, because the closing leg back to the
depot is never emitted (the counterexample below shows the original
"ends at the depot" conjunct is false). -/
theorem c1_route_permutation
    (points : List DeliveryPoint) (dist dur : Matrix) (cap maxD : Int)
    (oracle : SolverOracle) (t : ℚ) (stops : List Nat)
    (hdim : dist.length = points.length + 1)
    (ho : oracle (modelOf points dist dur cap maxD) (searchParamsOf vrp_solver) = some stops)
    (hok : SolverOk (modelOf points dist dur cap maxD) stops) :
    (((okValue (solve_vrp vrp_solver points dist dur cap maxD oracle t)).1.optimized_sequence).map
        stripSeq).Perm (points.map stripSeq)
  ∧ (∀ s1, (okValue (solve_vrp vrp_solver points dist dur cap maxD oracle t)).1.route_segments.head?
        = some s1 → s1.from_point_id = "DEPOT")
  ∧ chainOk (okValue (solve_vrp vrp_solver points dist dur cap maxD oracle t)).1.route_segments
      = true
  ∧ (((okValue (solve_vrp vrp_solver points dist dur cap maxD oracle t)).1.route_segments.getLast?).map
        (fun sg => sg.to_point_id))
      = (((okValue (solve_vrp vrp_solver points dist dur cap maxD oracle t)).1.optimized_sequence.getLast?).map
        (fun p => p.point_id)) := by
  have hperm := solverOk_perm hok
  have hz := stops_ne_zero hperm
  rw [solve_vrp_eq_ok hdim ho, okValue_ok]
  rw [solveOkValue_opt, solveOkValue_segs]
  refine ⟨opt_strip_perm hperm hz, ?_, ?_, ?_⟩
  · rw [extract_solution_segs _ _ _ _ hz]
    cases stops with
    | nil =>
      intro s1 h
      simp [legsOf, List.enumFrom] at h
    | cons s rest =>
      intro s1 h
      have hseg : s1 = segOf points dist dur 0 (0, s) := by
        have hL : legsOf (0 :: s :: rest) = (0, s) :: legsOf (s :: rest) := rfl
        rw [hL] at h
        simpa [List.enumFrom] using h.symm
      rw [hseg]
      rfl
  · rw [extract_solution_segs _ _ _ _ hz]
    exact chainOk_segOf points dist dur (0 :: stops) 0
  · rw [extract_solution_segs _ _ _ _ hz, extract_solution_opt _ _ _ _ hz]
    cases stops with
    | nil => simp [legsOf, List.enumFrom]
    | cons s rest =>
      have hmapsegs : (((List.enumFrom 0 (legsOf (0 :: s :: rest))).map
            (fun e => segOf points dist dur e.1 e.2)).getLast?).map (fun sg => sg.to_point_id)
          = (((s :: rest) : List Nat).getLast?).map (fun x => pointId x points) := by
        rw [List.getLast?_map, Option.map_map]
        have hc : ((fun sg : RouteSegment => sg.to_point_id) ∘
              (fun e : Nat × (Nat × Nat) => segOf points dist dur e.1 e.2))
            = (fun x => pointId x points) ∘ Prod.snd ∘ Prod.snd := by
          funext e
          rfl
        rw [hc]
        have hsnd : ((List.enumFrom 0 (legsOf (0 :: s :: rest))).getLast?).map Prod.snd
            = (legsOf (0 :: s :: rest)).getLast? := by
          rw [← List.getLast?_map, List.enumFrom_map_snd]
        have : ((List.enumFrom 0 (legsOf (0 :: s :: rest))).getLast?).map
              ((fun x => pointId x points) ∘ Prod.snd ∘ Prod.snd)
            = ((((List.enumFrom 0 (legsOf (0 :: s :: rest))).getLast?).map Prod.snd).map
                Prod.snd).map (fun x => pointId x points) := by
          rw [Option.map_map, Option.map_map]
          rfl
        rw [this, hsnd, legsOf_getLast?_snd (s :: rest) 0 (by simp)]
      have hmapopt : (((List.enumFrom 0 ((s :: rest) : List Nat)).map
            (fun e => withSeq (points.getD (e.2 - 1) default) e.1)).getLast?).map
              (fun p => p.point_id)
          = (((s :: rest) : List Nat).getLast?).map
              (fun x => (points.getD (x - 1) default).point_id) := by
        rw [List.getLast?_map, Option.map_map]
        have hc : ((fun p : DeliveryPoint => p.point_id) ∘
              (fun e : Nat × Nat => withSeq (points.getD (e.2 - 1) default) e.1))
            = (fun x => (points.getD (x - 1) default).point_id) ∘ Prod.snd := by
          funext e
          rfl
        rw [hc, ← Option.map_map, ← List.getLast?_map, List.enumFrom_map_snd]
      rw [hmapsegs, hmapopt]
      rcases hlast : ((s :: rest) : List Nat).getLast? with _ | last
      · simp at hlast
      · have hmem : last ∈ (s :: rest) := List.mem_of_getLast?_eq_some hlast
        have hlz : last ≠ 0 := hz last hmem
        show some (pointId last points) = some ((points.getD (last - 1) default).point_id)
        simp [pointId, hlz]

/-- Witness for C1 at a concrete two-stop problem solved in the order
stop 2 then stop 1. -/
theorem c1_witness :
    (((okValue (solve_vrp vrp_solver [cP1, cP2] cDist2 cDur2 20 480 cOracle21 0)).1.optimized_sequence).map
        stripSeq).Perm ([cP1, cP2].map stripSeq)
  ∧ chainOk (okValue (solve_vrp vrp_solver [cP1, cP2] cDist2 cDur2 20 480 cOracle21 0)).1.route_segments
      = true :=
  ⟨(c1_route_permutation [cP1, cP2] cDist2 cDur2 20 480 cOracle21 0 [2, 1]
      (by decide) rfl (by decide)).1,
   (c1_route_permutation [cP1, cP2] cDist2 cDur2 20 480 cOracle21 0 [2, 1]
      (by decide) rfl (by decide)).2.2.1⟩

/-- Counterexample for C1 as stated: on the one-stop problem the single
emitted segment ends at the stop "P1", not at the depot, even though
the visiting order satisfies the OR-Tools contract. -/
theorem c1_counterexample :
    SolverOk (modelOf [cP1] cDist1 cDur1 20 480) [1]
  ∧ (Except.map (fun x => x.1.route_segments.map (fun sg => sg.to_point_id))
      (solve_vrp vrp_solver [cP1] cDist1 cDur1 20 480 cOracle1 0)) = .ok ["P1"]
  ∧ "P1" ≠ "DEPOT" := by
  refine ⟨by decide, by decide, by decide⟩

/-! ## Claim C2 -/

theorem int_cast_list_sum (l : List ℤ) : ((l.sum : ℤ) : ℚ) = (l.map (fun z : ℤ => (z : ℚ))).sum := by
  induction l with
  | nil => simp
  | cons a t ih => simp [ih]

/-- C2 (amended): at every position of the returned route the
cumulative load (sum of package counts of the stops visited so far) is
at most `vehicle_capacity` exactly as claimed; the duration bound
`max_duration_minutes * 60` is enforced by the solver only on the
integer-truncated leg durations (the callbacks apply Python `int` to
the matrix entries), so the truncated cumulative duration respects the
bound at every position while the untruncated cumulative duration may
exceed it, by strictly less than one second per traversed leg (see the
counterexample). -/
theorem c2_resource_bounds
    (points : List DeliveryPoint) (dist dur : Matrix) (cap maxD : Int)
    (oracle : SolverOracle) (t : ℚ) (stops : List Nat)
    (hdim : dist.length = points.length + 1)
    (ho : oracle (modelOf points dist dur cap maxD) (searchParamsOf vrp_solver) = some stops)
    (hok : SolverOk (modelOf points dist dur cap maxD) stops) :
    (∀ k, ((((okValue (solve_vrp vrp_solver points dist dur cap maxD oracle t)).1.optimized_sequence.take
        k).map (fun p => p.package_count)).sum ≤ cap))
  ∧ (∀ k, ((((okValue (solve_vrp vrp_solver points dist dur cap maxD oracle t)).1.route_segments.take
        k).map (fun sg => pyInt (60 * sg.duration_minutes))).sum ≤ maxD * 60))
  ∧ (∀ k, ((((okValue (solve_vrp vrp_solver points dist dur cap maxD oracle t)).1.route_segments.take
        k).map (fun sg => 60 * sg.duration_minutes)).sum ≤ ((maxD * 60 : ℤ) : ℚ) + k)) := by
  have hperm := solverOk_perm hok
  have hz := stops_ne_zero hperm
  rw [solve_vrp_eq_ok hdim ho, okValue_ok, solveOkValue_opt, solveOkValue_segs,
    extract_solution_opt _ _ _ _ hz, extract_solution_segs _ _ _ _ hz]
  have hpc : ((List.enumFrom 0 stops).map
        (fun e => withSeq (points.getD (e.2 - 1) default) e.1)).map
          (fun p => p.package_count)
      = stops.map (fun s => (points.getD (s - 1) default).package_count) := by
    rw [List.map_map]
    have hc : ((fun p : DeliveryPoint => p.package_count) ∘
          fun e : Nat × Nat => withSeq (points.getD (e.2 - 1) default) e.1)
        = (fun s => (points.getD (s - 1) default).package_count) ∘ Prod.snd := by
      funext e
      rfl
    rw [hc, ← List.map_map, List.enumFrom_map_snd]
  have hdm : ((List.enumFrom 0 (legsOf (0 :: stops))).map
        (fun e => segOf points dist dur e.1 e.2)).map
          (fun sg => pyInt (60 * sg.duration_minutes))
      = (legsOf (0 :: stops)).map (fun pq => pyInt (mat dur pq.1 pq.2)) := by
    rw [List.map_map]
    have hc : ((fun sg : RouteSegment => pyInt (60 * sg.duration_minutes)) ∘
          fun e : Nat × (Nat × Nat) => segOf points dist dur e.1 e.2)
        = (fun pq : Nat × Nat => pyInt (60 * (mat dur pq.1 pq.2 / 60))) ∘ Prod.snd := by
      funext e
      rfl
    rw [hc, ← List.map_map, List.enumFrom_map_snd]
    apply List.map_congr_left
    intro pq _
    rw [sixty_mul_div_sixty]
  refine ⟨?_, ?_, ?_⟩
  · intro k
    rw [List.map_take, hpc]
    exact solverOk_load hok k
  · intro k
    rw [List.map_take, hdm]
    exact solverOk_time hok k
  · intro k
    set segs := (List.enumFrom 0 (legsOf (0 :: stops))).map
      (fun e => segOf points dist dur e.1 e.2) with hsegs
    have hint : (((segs.take k).map (fun sg => pyInt (60 * sg.duration_minutes))).sum)
        ≤ maxD * 60 := by
      rw [hsegs, List.map_take, hdm]
      exact solverOk_time hok k
    have hpoint : ((segs.take k).map (fun sg => 60 * sg.duration_minutes)).sum
        ≤ ((segs.take k).map
            (fun sg => ((pyInt (60 * sg.duration_minutes) : ℤ) : ℚ) + 1)).sum :=
      List.sum_le_sum (fun sg _ => le_pyInt_add_one _)
    have hsplit : ((segs.take k).map
          (fun sg => ((pyInt (60 * sg.duration_minutes) : ℤ) : ℚ) + 1)).sum
        = ((segs.take k).map
            (fun sg => ((pyInt (60 * sg.duration_minutes) : ℤ) : ℚ))).sum
          + (segs.take k).length * 1 :=
      sum_map_add_const _ _ _
    have hcast : ((segs.take k).map
          (fun sg => ((pyInt (60 * sg.duration_minutes) : ℤ) : ℚ))).sum
        = ((((segs.take k).map (fun sg => pyInt (60 * sg.duration_minutes))).sum : ℤ) : ℚ) := by
      rw [int_cast_list_sum, List.map_map]
      rfl
    have hlen : ((segs.take k).length : ℚ) ≤ (k : ℚ) := by
      exact_mod_cast Nat.cast_le.mpr (List.length_take_le k segs)
    have hcastle : ((((segs.take k).map (fun sg => pyInt (60 * sg.duration_minutes))).sum : ℤ) : ℚ)
        ≤ ((maxD * 60 : ℤ) : ℚ) := by
      exact_mod_cast hint
    rw [hsplit, hcast] at hpoint
    calc ((segs.take k).map (fun sg => 60 * sg.duration_minutes)).sum
        ≤ ((((segs.take k).map (fun sg => pyInt (60 * sg.duration_minutes))).sum : ℤ) : ℚ)
            + (segs.take k).length * 1 := hpoint
      _ ≤ ((maxD * 60 : ℤ) : ℚ) + k := by
          rw [mul_one]
          exact add_le_add hcastle hlen

/-- Witness for C2 at a concrete two-stop problem. -/
theorem c2_witness :
    ((((okValue (solve_vrp vrp_solver [cP1, cP2] cDist2 cDur2 20 480 cOracle21 0)).1.optimized_sequence.take
        2).map (fun p => p.package_count)).sum ≤ 20)
  ∧ ((((okValue (solve_vrp vrp_solver [cP1, cP2] cDist2 cDur2 20 480 cOracle21 0)).1.route_segments.take
        2).map (fun sg => pyInt (60 * sg.duration_minutes))).sum ≤ 480 * 60) :=
  ⟨(c2_resource_bounds [cP1, cP2] cDist2 cDur2 20 480 cOracle21 0 [2, 1]
      (by decide) rfl (by decide)).1 2,
   (c2_resource_bounds [cP1, cP2] cDist2 cDur2 20 480 cOracle21 0 [2, 1]
      (by decide) rfl (by decide)).2.1 2⟩

/-- Counterexample for C2 as stated: a one-stop problem with a leg
duration of 60.5 seconds and a 1-minute bound is feasible for the
solver (the truncated duration is 60), but the cumulative travel
duration of the returned route is 60.5 seconds, exceeding
`max_duration_minutes * 60 = 60`. -/
theorem c2_counterexample :
    SolverOk (modelOf [cP1] cDist1 cDurHalf 20 1) [1]
  ∧ (Except.map (fun x => ((x.1.route_segments.map (fun sg => 60 * sg.duration_minutes)).sum))
      (solve_vrp vrp_solver [cP1] cDist1 cDurHalf 20 1 cOracle1 0)) = .ok (mkRat 121 2)
  ∧ ¬ ((mkRat 121 2 : ℚ) ≤ 1 * 60) := by
  refine ⟨by decide, ?_, ?_⟩
  · simp [solve_vrp, extract_solution, extractStep, pointId, mat, cP1, cDist1, cDurHalf,
      cOracle1, Except.map]
    norm_num
  · norm_num [mkRat, Rat.normalize]

/-! ## Claim C3 -/

/-- C3 (amended): when the solver finds no feasible tour, `solve_vrp`
raises the generic builtin `ValueError` carrying the fixed
"No feasible solution found" message - the same exception class used
for input validation, not a distinct `InfeasibleProblemError` (no such
class exists in the repository) - and it returns no partial solution.
For the concrete instance of the claim (three stops of demand 10 and
capacity 15) no visiting order satisfies the solver contract, so a
sound solver must answer `none`. -/
theorem c3_infeasible_generic_valueerror :
    (∀ (points : List DeliveryPoint) (dist dur : Matrix) (cap maxD : Int) (t : ℚ),
      dist.length = points.length + 1 →
      solve_vrp vrp_solver points dist dur cap maxD cOracleNone t
        = .error (.valueError noSolutionMsg))
  ∧ (∀ stops, ¬ SolverOk (modelOf cPtsInf cM4 cM4 15 480) stops) := by
  constructor
  · intro points dist dur cap maxD t hdim
    exact solve_vrp_eq_none hdim rfl
  · rintro stops ⟨hperm, hload, -⟩
    have hperm3 : stops.Perm (List.range' 1 3) := by
      simpa [modelOf, cPtsInf] using hperm
    rw [prefixSumsOk_iff] at hload
    simp only [zero_add] at hload
    have hfull := hload (((routeNodes stops).map
      (demandOf (modelOf cPtsInf cM4 cM4 15 480))).length)
    rw [List.take_length] at hfull
    have hsum : ((routeNodes stops).map (demandOf (modelOf cPtsInf cM4 cM4 15 480))).sum
        = (stops.map (demandOf (modelOf cPtsInf cM4 cM4 15 480))).sum := by
      simp [routeNodes, demandOf]
    have hsum30 : (stops.map (demandOf (modelOf cPtsInf cM4 cM4 15 480))).sum = 30 := by
      have := (hperm3.map (demandOf (modelOf cPtsInf cM4 cM4 15 480))).sum_eq
      rw [this]
      decide
    rw [hsum, hsum30] at hfull
    have hcap : (modelOf cPtsInf cM4 cM4 15 480).vehicle_capacity = 15 := rfl
    rw [hcap] at hfull
    omega

/-- Witness for C3: a concrete no-solution run returns the generic
ValueError, and the infeasible three-stop instance admits no
contract-satisfying visiting order. -/
theorem c3_witness :
    (solve_vrp vrp_solver [cP1] cDist1 cDur1 20 480 cOracleNone 0
        = .error (.valueError noSolutionMsg))
  ∧ ¬ SolverOk (modelOf cPtsInf cM4 cM4 15 480) [1, 2, 3] :=
  ⟨c3_infeasible_generic_valueerror.1 [cP1] cDist1 cDur1 20 480 0 (by decide),
   c3_infeasible_generic_valueerror.2 [1, 2, 3]⟩

/-- Counterexample for C3 as stated: on the claim's own infeasible
instance the error is the generic `ValueError` (the only exception
class the code raises), not a distinct `InfeasibleProblemError`. -/
theorem c3_counterexample :
    solve_vrp vrp_solver cPtsInf cM4 cM4 15 480 cOracleNone 0
      = .error (.valueError noSolutionMsg) := by
  decide

/-! ## Claim C4 -/

/-- C4 (amended): the only input validation `solve_vrp` performs before
consulting the solver is the matrix-dimension check, and the exception
it raises there is the same generic `ValueError` class used for the
search failure; zero or negative demand, capacity at most 0 and max
duration at most 0 are not checked at all (with such inputs the search
is still attempted, and can even succeed - see the counterexample). -/
theorem c4_validation_only_matrix_dim :
    (∀ (points : List DeliveryPoint) (dist dur : Matrix) (cap maxD : Int)
      (oracle : SolverOracle) (t : ℚ),
      dist.length ≠ points.length + 1 →
      solve_vrp vrp_solver points dist dur cap maxD oracle t
        = .error (.valueError (dimMismatchMsg dist.length (points.length + 1))))
  ∧ (∀ (points : List DeliveryPoint) (dist dur : Matrix) (cap maxD : Int)
      (oracle : SolverOracle) (t : ℚ) (e : PyError),
      dist.length = points.length + 1 →
      solve_vrp vrp_solver points dist dur cap maxD oracle t = .error e →
      e = .valueError noSolutionMsg) := by
  constructor
  · intro points dist dur cap maxD oracle t hdim
    exact solve_vrp_eq_dim hdim
  · intro points dist dur cap maxD oracle t e hdim herr
    rcases ho : oracle (modelOf points dist dur cap maxD) (searchParamsOf vrp_solver)
      with _ | stops
    · rw [solve_vrp_eq_none hdim ho] at herr
      exact (by cases herr; rfl)
    · rw [solve_vrp_eq_ok hdim ho] at herr
      exact Except.noConfusion herr

/-- Witness for C4: a dimension mismatch raises the ValueError without
consulting the oracle, and with matching dimensions the only possible
error is the no-solution ValueError. -/
theorem c4_witness :
    (solve_vrp vrp_solver [] ([] : Matrix) [] 0 0 cOracleNone 0
        = .error (.valueError (dimMismatchMsg 0 1)))
  ∧ (PyError.valueError noSolutionMsg = PyError.valueError noSolutionMsg) :=
  ⟨by
    have h := c4_validation_only_matrix_dim.1 [] ([] : Matrix) [] 0 0 cOracleNone 0 (by decide)
    exact h,
   c4_validation_only_matrix_dim.2 [cP1] cDist1 cDur1 20 480 cOracleNone 0
     (.valueError noSolutionMsg) (by decide) (by decide)⟩

/-- Counterexample for C4 as stated: a stop with zero demand, capacity
0 and max duration 0 - all three conditions the claim says must raise a
pre-search ValidationError - yields a successful optimisation instead,
and the visiting order used even satisfies the solver contract. -/
theorem c4_counterexample :
    SolverOk (modelOf [cP0] cDist1 cDurZ 0 0) [1]
  ∧ (solve_vrp vrp_solver [cP0] cDist1 cDurZ 0 0 cOracle1 0).isOk = true := by
  refine ⟨by decide, by decide⟩

/-! ## Claim C5 -/

/-- C5 (code bug): the extraction loop terminates at the OR-Tools end
index before processing the return to the depot, so the closing leg is
never emitted: a route over 2 stops yields 2 segments (DEPOT to P1 and
P1 to P2), not the 3 segments the spec requires, even though the
visiting order satisfies the solver contract.  The dead
"Back to depot" branch in `_extract_solution` (lines 339-341) and the
comment at line 336 show the closing leg was intended. -/
theorem c5_missing_return_leg :
    SolverOk (modelOf [cP1, cP2] cDist2 cDur2 20 480) [1, 2]
  ∧ (Except.map (fun x => x.1.route_segments.length)
      (solve_vrp vrp_solver [cP1, cP2] cDist2 cDur2 20 480 cOracle12 0)) = .ok 2
  ∧ (Except.map (fun x => x.1.route_segments.map (fun sg => (sg.from_point_id, sg.to_point_id)))
      (solve_vrp vrp_solver [cP1, cP2] cDist2 cDur2 20 480 cOracle12 0))
      = .ok [("DEPOT", "P1"), ("P1", "P2")]
  ∧ (2 : Nat) ≠ 2 + 1 := by
  refine ⟨by decide, by decide, by decide, by decide⟩

/-! ## Claim C6 -/

/-- C6 (confirmed): in every result returned by `solve_vrp`,
`total_distance_km` equals the sum of the `distance_meters` of the
emitted segments divided by 1000 and rounded to 2 decimals (hence
within 0.01 km of the unrounded quotient), and `total_duration_minutes`
equals the sum of the segment durations in seconds divided by 60,
rounded to 1 decimal. -/
theorem c6_totals
    (points : List DeliveryPoint) (dist dur : Matrix) (cap maxD : Int)
    (oracle : SolverOracle) (t : ℚ)
    (h : (solve_vrp vrp_solver points dist dur cap maxD oracle t).isOk = true) :
    |(okValue (solve_vrp vrp_solver points dist dur cap maxD oracle t)).1.total_distance_km
        - (((okValue (solve_vrp vrp_solver points dist dur cap maxD oracle t)).1.route_segments.map
            (fun sg => sg.distance_meters)).sum) / 1000| ≤ 1 / 100
  ∧ (okValue (solve_vrp vrp_solver points dist dur cap maxD oracle t)).1.total_duration_minutes
      = roundTo 1 ((((okValue (solve_vrp vrp_solver points dist dur cap maxD oracle t)).1.route_segments.map
          (fun sg => 60 * sg.duration_minutes)).sum) / 60) := by
  obtain ⟨hdim, stops, ho⟩ := solve_vrp_isOk_elim h
  rw [solve_vrp_eq_ok hdim ho, okValue_ok, solveOkValue_segs]
  have h1 : (solveOkValue points dist dur stops t).1.total_distance_km
      = (extract_solution stops points dist dur).1.total_distance_km := rfl
  have h2 : (solveOkValue points dist dur stops t).1.total_duration_minutes
      = (extract_solution stops points dist dur).1.total_duration_minutes := rfl
  rw [h1, h2, extract_solution_total_dist, extract_solution_total_dur]
  exact ⟨abs_roundTo2_sub _, rfl⟩

/-- Witness for C6 at a concrete two-stop run. -/
theorem c6_witness :
    |(okValue (solve_vrp vrp_solver [cP1, cP2] cDist2 cDur2 20 480 cOracle21 0)).1.total_distance_km
        - (((okValue (solve_vrp vrp_solver [cP1, cP2] cDist2 cDur2 20 480 cOracle21 0)).1.route_segments.map
            (fun sg => sg.distance_meters)).sum) / 1000| ≤ 1 / 100
  ∧ (okValue (solve_vrp vrp_solver [cP1, cP2] cDist2 cDur2 20 480 cOracle21 0)).1.total_duration_minutes
      = roundTo 1 ((((okValue (solve_vrp vrp_solver [cP1, cP2] cDist2 cDur2 20 480 cOracle21 0)).1.route_segments.map
          (fun sg => 60 * sg.duration_minutes)).sum) / 60) :=
  c6_totals [cP1, cP2] cDist2 cDur2 20 480 cOracle21 0 (by decide)

/-! ## Claim C7 -/

/-- C7 (amended): the `solver_info` of every returned solution carries
the elapsed search time, the objective value (the truncated arc costs
summed over the closed tour), the location count and the strategy
identifiers, plus a `status` tag - but that tag is always "OPTIMAL"
(the code would emit "FEASIBLE" only for an infinite objective, which
an integer objective can never be); no termination-reason tag with the
values `time_limit` or `converged` is ever emitted. -/
theorem c7_solver_info
    (points : List DeliveryPoint) (dist dur : Matrix) (cap maxD : Int)
    (oracle : SolverOracle) (t : ℚ) (stops : List Nat)
    (hdim : dist.length = points.length + 1)
    (ho : oracle (modelOf points dist dur cap maxD) (searchParamsOf vrp_solver) = some stops) :
    (okValue (solve_vrp vrp_solver points dist dur cap maxD oracle t)).1.solver_info
      = some { solve_time_seconds := t
               objective_value := objectiveValue dist stops
               status := "OPTIMAL"
               num_locations := points.length + 1
               strategy := "PATH_CHEAPEST_ARC + GUIDED_LOCAL_SEARCH" } := by
  rw [solve_vrp_eq_ok hdim ho, okValue_ok]
  rfl

/-- Witness for C7 at a concrete run. -/
theorem c7_witness :
    (okValue (solve_vrp vrp_solver [cP1] cDist1 cDur1 20 480 cOracle1 0)).1.solver_info
      = some { solve_time_seconds := 0
               objective_value := objectiveValue cDist1 [1]
               status := "OPTIMAL"
               num_locations := 2
               strategy := "PATH_CHEAPEST_ARC + GUIDED_LOCAL_SEARCH" } :=
  c7_solver_info [cP1] cDist1 cDur1 20 480 cOracle1 0 [1] (by decide) rfl

/-- Counterexample for C7 as stated: the emitted status tag is
"OPTIMAL", which is neither of the claimed values `time_limit` and
`converged`. -/
theorem c7_counterexample :
    (Except.map (fun x => x.1.solver_info.map (fun si => si.status))
      (solve_vrp vrp_solver [cP1] cDist1 cDur1 20 480 cOracle1 0)) = .ok (some "OPTIMAL")
  ∧ "OPTIMAL" ≠ "time_limit" ∧ "OPTIMAL" ≠ "converged" := by
  refine ⟨by decide, by decide, by decide⟩

/-! ## Claim C8 -/

/-- C8 (amended): the extraction step touches no external collaborator,
but it does mutate the caller's `DeliveryPoint` objects: it writes
`sequence_number` on every routed point.  That is the only field it
writes - after any successful `solve_vrp` call the caller's list agrees
with its pre-call state on every field other than `sequence_number`
(the counterexample shows `sequence_number` itself does change). -/
theorem c8_mutation_only_sequence_number
    (points : List DeliveryPoint) (dist dur : Matrix) (cap maxD : Int)
    (oracle : SolverOracle) (t : ℚ)
    (h : (solve_vrp vrp_solver points dist dur cap maxD oracle t).isOk = true) :
    (okValue (solve_vrp vrp_solver points dist dur cap maxD oracle t)).2.map stripSeq
      = points.map stripSeq := by
  obtain ⟨hdim, stops, ho⟩ := solve_vrp_isOk_elim h
  rw [solve_vrp_eq_ok hdim ho, okValue_ok, solveOkValue_snd]
  exact extract_solution_points_strip stops points dist dur

/-- Witness for C8 at a concrete two-stop run. -/
theorem c8_witness :
    (okValue (solve_vrp vrp_solver [cP1, cP2] cDist2 cDur2 20 480 cOracle21 0)).2.map stripSeq
      = [cP1, cP2].map stripSeq :=
  c8_mutation_only_sequence_number [cP1, cP2] cDist2 cDur2 20 480 cOracle21 0 (by decide)

/-- Counterexample for C8 as stated: before the call the stop's
`sequence_number` is `none`; after the call the caller-visible list
holds `some 0` - `solve_vrp` mutated a field of a DeliveryPoint in the
caller's list. -/
theorem c8_counterexample :
    [cP1].map (fun p => p.sequence_number) = [none]
  ∧ (Except.map (fun x => x.2.map (fun p => p.sequence_number))
      (solve_vrp vrp_solver [cP1] cDist1 cDur1 20 480 cOracle1 0)) = .ok [some 0] := by
  refine ⟨by decide, by decide⟩

/-! ## Claim C9 -/

/-- C9 (confirmed): the wall-clock search budget handed to the solver
is the instance field `time_limit_seconds`, fixed to 30 when the global
`vrp_solver` instance is constructed, and no argument of `solve_vrp`
can change it: the outcome of any call depends only on the behaviour of
the underlying solver at search parameters whose time limit is 30
seconds, whatever the delivery points, matrices, capacity or duration
arguments are. -/
theorem c9_time_budget_fixed :
    vrp_solver.time_limit_seconds = 30
  ∧ (searchParamsOf vrp_solver).time_limit_seconds = vrp_solver.time_limit_seconds
  ∧ (∀ (points : List DeliveryPoint) (dist dur : Matrix) (cap maxD : Int) (t : ℚ)
      (o1 o2 : SolverOracle),
      (∀ m p, p.time_limit_seconds = 30 → o1 m p = o2 m p) →
      solve_vrp vrp_solver points dist dur cap maxD o1 t
        = solve_vrp vrp_solver points dist dur cap maxD o2 t) := by
  refine ⟨rfl, rfl, ?_⟩
  intro points dist dur cap maxD t o1 o2 hagree
  have h30 : (searchParamsOf vrp_solver).time_limit_seconds = 30 := rfl
  have hoo : o1 (modelOf points dist dur cap maxD) (searchParamsOf vrp_solver)
      = o2 (modelOf points dist dur cap maxD) (searchParamsOf vrp_solver) :=
    hagree _ _ h30
  simp only [solve_vrp, hoo]

/-- Witness for C9: the fixed 30-second budget and oracle-independence
at a concrete call. -/
theorem c9_witness :
    vrp_solver.time_limit_seconds = 30
  ∧ solve_vrp vrp_solver [cP1] cDist1 cDur1 20 480 cOracleNone 0
      = solve_vrp vrp_solver [cP1] cDist1 cDur1 20 480 (fun _ _ => none) 0 :=
  ⟨c9_time_budget_fixed.1,
   c9_time_budget_fixed.2.2 [cP1] cDist1 cDur1 20 480 0 cOracleNone (fun _ _ => none)
     (fun _ _ _ => rfl)⟩

/-! ## Claim C10 -/

/-- C10 (confirmed): `calculate_distance_matrix` rejects fewer than 2
or more than 50 locations with a `ValueError` raised before the network
request is issued (the outcome is independent of whatever the request
would return), and consequently every matrix pair this provider hands
to the engine covers at most 50 locations, i.e. at most 49 stops plus
the depot. -/
theorem c10_location_count_validation :
    ∀ (locations : List Location) (r1 r2 : ORSResponse),
      (locations.length < 2 →
        calculate_distance_matrix locations r1
          = .error (.valueError "Need at least 2 locations to calculate distance matrix"))
    ∧ (50 < locations.length →
        calculate_distance_matrix locations r1
          = .error (.valueError "Maximum 50 locations per request"))
    ∧ ((locations.length < 2 ∨ 50 < locations.length) →
        calculate_distance_matrix locations r1 = calculate_distance_matrix locations r2)
    ∧ (∀ result, calculate_distance_matrix locations r1 = .ok result →
        locations.length ≤ 50 ∧ locations.length - 1 ≤ 49) := by
  intro locations r1 r2
  have hlow : ∀ (r : ORSResponse), locations.length < 2 →
      calculate_distance_matrix locations r
        = .error (.valueError "Need at least 2 locations to calculate distance matrix") := by
    intro r h
    unfold calculate_distance_matrix
    rw [if_pos h]
  have hhigh : ∀ (r : ORSResponse), 50 < locations.length →
      calculate_distance_matrix locations r
        = .error (.valueError "Maximum 50 locations per request") := by
    intro r h
    unfold calculate_distance_matrix
    rw [if_neg (by omega), if_pos (by omega)]
  refine ⟨hlow r1, hhigh r1, ?_, ?_⟩
  · rintro (h | h)
    · rw [hlow r1 h, hlow r2 h]
    · rw [hhigh r1 h, hhigh r2 h]
  · intro result hok
    rcases le_or_lt locations.length 50 with h50 | h50
    · exact ⟨h50, by omega⟩
    · rw [hhigh r1 h50] at hok
      exact Except.noConfusion hok

/-- Witness for C10: the empty location list is rejected regardless of
the response, 51 locations are rejected, and a successful 2-location
call is within the 50-location bound. -/
theorem c10_witness :
    (calculate_distance_matrix [] cResp
        = .error (.valueError "Need at least 2 locations to calculate distance matrix"))
  ∧ (calculate_distance_matrix cLocs51 cResp
        = .error (.valueError "Maximum 50 locations per request"))
  ∧ (calculate_distance_matrix cLocs51 cResp = calculate_distance_matrix cLocs51 cRespOk)
  ∧ ([cLoc, cLoc].length ≤ 50 ∧ [cLoc, cLoc].length - 1 ≤ 49) :=
  ⟨(c10_location_count_validation [] cResp cResp).1 (by decide),
   (c10_location_count_validation cLocs51 cResp cResp).2.1 (by decide),
   (c10_location_count_validation cLocs51 cResp cRespOk).2.2.1 (Or.inr (by decide)),
   (c10_location_count_validation [cLoc, cLoc] cRespOk cRespOk).2.2.2
     (cRespOk.distances, cRespOk.durations) (by decide)⟩

end VRP
